import Mathlib

/-!
Verification development for the `auth` module (src/index.js): an
authentication/authorization middleware that issues, validates and renews
signed session tokens carried in cookies, and enforces per-URL role-based
access rules.

The embedding below translates the source closely:
* JavaScript truthiness is modelled explicitly where the code branches on
  it (`Option` for possibly-absent fields, `= 0` / `= ""` falsiness checks);
* the two external collaborators (the `jwt` signing primitive and the
  `url-parser` pattern matcher) are not part of this repository; they are
  modelled from the spec's contract for them (see the doc comments on
  `jwtDeserialize`, `urlMatches` and `urlMatchesWith`);
* side effects (Set-Cookie headers, the rejection JSON body, the error log)
  become an explicit trace of `Effect`s, and each invocation of
  `tryToRefreshToken` is recorded in the trace as a `refreshAttempt` event;
* every call to `new Date().getTime()` becomes an explicit timestamp
  parameter, collected in a `Times` record in sampling order.
-/

namespace OzairAuth

/-- The `roles` field of caller data: absent, a single string, or an array
of strings (the source branches on `typeof userRoles === 'string'`). -/
inductive RolesVal where
  | absent : RolesVal
  | one : String → RolesVal
  | many : List String → RolesVal
deriving DecidableEq

/-- Caller data (`udata.data` in a token): the application payload consumed
by the authorization evaluator, carrying the `roles` field. -/
structure UserData where
  roles : RolesVal
deriving DecidableEq

/-- The `udata` object `{ app: appId, sub: userId, data: ... }` as built by
`createAuthentication` (src/index.js lines 219-223). -/
structure UData where
  app : String
  sub : Nat
  data : Option UserData
deriving DecidableEq

/-- Token payload: `{ exp, iss, rtexp, udata }` (src/index.js lines
215-224).  A decoded token may lack any of these fields, hence `Option`. -/
structure Token where
  exp : Option Nat
  iss : Option String
  rtexp : Option Nat
  udata : Option UData
deriving DecidableEq

/-- A serialized token string: either the serialization of a payload, or a
string that is not a valid serialized token (such as the `'undefined'`
sentinel written by `destroyAuthentication`). -/
inductive JwtString where
  | valid : Token → JwtString
  | invalid : String → JwtString
deriving DecidableEq

/-- Modelled from the spec: `jwt.serialize(payload, true)` of the external
signing primitive, an injective encoding of the payload (spec §4.3, §8
round-trip property).  The `secure` flag is always `true` in the source. -/
def jwtSerialize (t : Token) : JwtString :=
  JwtString.valid t

/-- JS truthiness of a token string: the empty string is falsy, every other
string (valid or not) is truthy. -/
def jwtTruthy : JwtString → Bool
  | JwtString.valid _ => true
  | JwtString.invalid s => s ≠ ""

/-- Errors thrown during request processing.  The source throws plain
`Error`s; the constructor records which `throw` site (or external failure)
produced it. -/
inductive AuthError where
  | tokenNotFound : AuthError
  | malformedToken : AuthError
  | refreshExpired : AuthError
  | refreshDenied : AuthError
  | notAuthorized : AuthError
  | udataMissing : AuthError
deriving DecidableEq

/-- Modelled from the spec: `JSON.parse(jwt.deserialize(tkn, true))` of the
external signing primitive; fails on malformed or tampered input (spec
§4.3), succeeds with the payload on a valid serialized token. -/
def jwtDeserialize : JwtString → Except AuthError Token
  | JwtString.valid t => Except.ok t
  | JwtString.invalid _ => Except.error AuthError.malformedToken

/-- A compiled URL rule (one entry of `urlParser.buildUrlRules`): the
compiled pattern is abstracted as its matching function, `data` is the
role list configured for the pattern. -/
structure UrlRule where
  matchesUri : String → Bool
  data : List String

/-- Custom authorize function, called as
`authAuthorizeFn(request, request.requestURI, urlRule.data, userData, urlRule)`. -/
structure Request where
  requestURI : String
  headersTknAppName : Option String
  cookies : List (String × JwtString)
  userData : Option UData
deriving DecidableEq

/-- The shape of a custom authorize function registered via `authorizeFn`. -/
def AuthorizeFn : Type :=
  Request → String → List String → Option UserData → UrlRule → Bool

/-- Middleware `params`: only the `tknAppName` key is read by the source. -/
structure Params where
  tknAppName : Option String

/-- The whole configuration state of one `Auth` instance (the module-level
`var`s of src/index.js lines 17-29). -/
structure AuthConfig where
  authAuthorizations : Option (List UrlRule)
  authNotAuthenticatedUrls : Option (List UrlRule)
  authCanRefreshTokenFn : Option (Token → Bool)
  authAuthorizeFn : Option AuthorizeFn
  authUseSecureAuthentication : Bool
  authAccessTokenTTL : List (String × Nat)
  authRefreshTokenTTL : List (String × Nat)

/-- The constant `5 * (1000 * 60)` — DEFAULT_ACCESS_TOKEN_TTL (5 minutes). -/
def DEFAULT_ACCESS_TOKEN_TTL : Nat := 5 * (1000 * 60)

/-- The constant `8 * (1000 * 60 * 60)` — DEFAULT_REFRESH_TOKEN_TTL (8 hours). -/
def DEFAULT_REFRESH_TOKEN_TTL : Nat := 8 * (1000 * 60 * 60)

/-- The state of `new Auth()`: only the two TTL maps carry a `default`
entry; everything else is unset. -/
def initialAuth : AuthConfig :=
  { authAuthorizations := none
    authNotAuthenticatedUrls := none
    authCanRefreshTokenFn := none
    authAuthorizeFn := none
    authUseSecureAuthentication := false
    authAccessTokenTTL := [("default", DEFAULT_ACCESS_TOKEN_TTL)]
    authRefreshTokenTTL := [("default", DEFAULT_REFRESH_TOKEN_TTL)] }

/-- JS object property write `m[app] = ttl` on a TTL map. -/
def ttlSet (m : List (String × Nat)) (app : String) (ttl : Nat) :
    List (String × Nat) :=
  (app, ttl) :: m.filter (fun p => p.1 ≠ app)

/-- JS object property read `m[app]` on a TTL map (`none` = `undefined`). -/
def ttlGet (m : List (String × Nat)) (app : String) : Option Nat :=
  (m.find? (fun p => p.1 = app)).map (fun p => p.2)

/-- Embeds `useSecureAuthentication(useSecure)` (src/index.js line 37). -/
def useSecureAuthentication (c : AuthConfig) (useSecure : Bool) : AuthConfig :=
  { c with authUseSecureAuthentication := useSecure }

/-- Embeds `authorizations(auths)` (line 48); `urlParser.buildUrlRules` is
abstracted: the setter receives the compiled rule list. -/
def authorizations (c : AuthConfig) (auths : List UrlRule) : AuthConfig :=
  { c with authAuthorizations := some auths }

/-- Embeds `authorizeFn(fn)` (line 60). -/
def setAuthorizeFn (c : AuthConfig) (fn : AuthorizeFn) : AuthConfig :=
  { c with authAuthorizeFn := some fn }

/-- Embeds `notAuthenticatedUrls(urls)` (line 71): a no-op on a falsy argument,
otherwise replaces the rule set with the freshly compiled one. -/
def notAuthenticatedUrls (c : AuthConfig) (urls : Option (List UrlRule)) :
    AuthConfig :=
  match urls with
  | some rules => { c with authNotAuthenticatedUrls := some rules }
  | none => c

/-- Embeds `clearNotAuthenticatedUrls()` (line 99): sets the list to `[]` (a
configured, empty rule set — a truthy value in JS). -/
def clearNotAuthenticatedUrls (c : AuthConfig) : AuthConfig :=
  { c with authNotAuthenticatedUrls := some [] }

/-- Embeds `accessTokenTTL(app, ttl)` (line 114): with one argument
(`app = none` here) the `default` entry is written. -/
def accessTokenTTL (c : AuthConfig) (app : Option String) (ttl : Nat) :
    AuthConfig :=
  { c with authAccessTokenTTL := ttlSet c.authAccessTokenTTL (app.getD "default") ttl }

/-- Embeds `refreshTokenTTL(app, ttl)` (line 135), symmetric to `accessTokenTTL`. -/
def refreshTokenTTL (c : AuthConfig) (app : Option String) (ttl : Nat) :
    AuthConfig :=
  { c with authRefreshTokenTTL := ttlSet c.authRefreshTokenTTL (app.getD "default") ttl }

/-- Embeds `canRefreshTokenFn(fn)` (line 153). -/
def setCanRefreshTokenFn (c : AuthConfig) (fn : Token → Bool) : AuthConfig :=
  { c with authCanRefreshTokenFn := some fn }

/-- The configurations reachable from `new Auth()` by the configuration
surface (spec §6): `initialAuth` closed under every setter. -/
inductive Reachable : AuthConfig → Prop where
  | init : Reachable initialAuth
  | secure (c : AuthConfig) (b : Bool) :
      Reachable c → Reachable (useSecureAuthentication c b)
  | auths (c : AuthConfig) (rs : List UrlRule) :
      Reachable c → Reachable (authorizations c rs)
  | authFn (c : AuthConfig) (fn : AuthorizeFn) :
      Reachable c → Reachable (setAuthorizeFn c fn)
  | notAuth (c : AuthConfig) (urls : Option (List UrlRule)) :
      Reachable c → Reachable (notAuthenticatedUrls c urls)
  | clearNotAuth (c : AuthConfig) :
      Reachable c → Reachable (clearNotAuthenticatedUrls c)
  | accessTTL (c : AuthConfig) (app : Option String) (ttl : Nat) :
      Reachable c → Reachable (accessTokenTTL c app ttl)
  | refreshTTL (c : AuthConfig) (app : Option String) (ttl : Nat) :
      Reachable c → Reachable (refreshTokenTTL c app ttl)
  | canRefresh (c : AuthConfig) (fn : Token → Bool) :
      Reachable c → Reachable (setCanRefreshTokenFn c fn)

/-- The `m[app] || m['default']` idiom shared by the two TTL getters: the
JS `||` falls through to the default entry when the per-app entry is
absent OR zero (`0` is falsy); an absent default entry reads as `0`. -/
def jsTtlLookup (m : List (String × Nat)) (app : String) : Nat :=
  match ttlGet m app with
  | some v => if v = 0 then (ttlGet m "default").getD 0 else v
  | none => (ttlGet m "default").getD 0

/-- Embeds `getAccessTokenTTL(app)` (line 367):
`authAccessTokenTTL[app] || authAccessTokenTTL['default']`. -/
def getAccessTokenTTL (c : AuthConfig) (app : String) : Nat :=
  jsTtlLookup c.authAccessTokenTTL app

/-- Embeds `getRefreshTokenTTL(app)` (line 363), symmetric. -/
def getRefreshTokenTTL (c : AuthConfig) (app : String) : Nat :=
  jsTtlLookup c.authRefreshTokenTTL app

/-- Modelled from the spec: the two-argument `urlParser.urlMatches(rules,
uri)` of the external matching primitive returns the first rule whose
pattern matches the URI, or none (spec §4.2) — as a truth value: does some
rule's pattern match. -/
def urlMatches (rules : List UrlRule) (uri : String) : Bool :=
  rules.any (fun r => r.matchesUri uri)

/-- Modelled from the spec: the three-argument
`urlParser.urlMatches(rules, uri, predicate)` of the external matching
primitive.  A rule counts as matched only when its pattern matches the URI
and the predicate accepts it, short-circuiting on the first qualifying
rule (spec §4.2); when no rule's pattern matches the URI at all the result
is affirmative — the documented default-allow for URLs with no explicit
rule (spec §4.5, §9). -/
def urlMatchesWith (rules : List UrlRule) (uri : String)
    (pred : UrlRule → Bool) : Bool :=
  if rules.any (fun r => r.matchesUri uri) then
    rules.any (fun r => r.matchesUri uri && pred r)
  else
    true

/-- JS truthiness of `userData && userData.roles` (src/index.js line 249):
falsy when the caller data is absent, the `roles` field is absent, or the
`roles` field is the empty string; an array — even an empty one — is
truthy. -/
def rolesTruthy : Option UserData → Bool
  | none => false
  | some u =>
    match u.roles with
    | RolesVal.absent => false
    | RolesVal.one s => s ≠ ""
    | RolesVal.many _ => true

/-- The `typeof userRoles === 'string'` normalization (line 255): a single
string becomes a one-element array.  The `absent` case is never consulted
by the role check (it is guarded by `rolesTruthy`). -/
def normRoles : Option UserData → List String
  | none => []
  | some u =>
    match u.roles with
    | RolesVal.absent => []
    | RolesVal.one s => [s]
    | RolesVal.many rs => rs

/-- Embeds `isAuthorized(request, userData)` (src/index.js lines 244-268). -/
def isAuthorized (c : AuthConfig) (request : Request)
    (userData : Option UserData) : Bool :=
  match c.authAuthorizations with
  | none => true
  | some rules =>
    if c.authAuthorizeFn.isNone && !(rolesTruthy userData) then
      true
    else
      urlMatchesWith rules request.requestURI (fun urlRule =>
        match c.authAuthorizeFn with
        | some fn => fn request request.requestURI urlRule.data userData urlRule
        | none =>
          urlRule.data.any (fun role => (normRoles userData).contains role))

/-- Embeds `isAuthenticatedUrl(requestURI)` (lines 270-272):
`!authNotAuthenticatedUrls || !urlParser.urlMatches(...)`. -/
def isAuthenticatedUrl (c : AuthConfig) (requestURI : String) : Bool :=
  match c.authNotAuthenticatedUrls with
  | none => true
  | some rules => !(urlMatches rules requestURI)

/-- One wall-clock sample per `new Date().getTime()` call made while
processing a request, in sampling order: the access-liveness check (line
301), the refresh-liveness check (line 305), the new `exp` (line 344) and
the new `rtexp` (line 345). -/
structure Times where
  tAccess : Nat
  tRefreshCheck : Nat
  tNewExp : Nat
  tNewRtexp : Nat

/-- The observable side effects of request processing: the Set-Cookie
header written by `setTokenIntoHeader` (the cookie-string formatting of
the wire format is abstracted to its name / serialized-token / secure
components), the rejection body written by `notAuthenticated`, the
`print(error)` log, and a trace marker recording each invocation of
`tryToRefreshToken`. -/
inductive Effect where
  | setCookie : String → JwtString → Bool → Effect
  | jsonBody : String → Nat → Nat → Effect
  | printLog : AuthError → Effect
  | refreshAttempt : Effect
deriving DecidableEq

/-- JS truthiness of an optional string (absent and `''` are falsy). -/
def strTruthy : Option String → Bool
  | none => false
  | some s => s ≠ ""

/-- Embeds `getTokenName(params, request)` (lines 308-310):
`params['tknAppName'] || request.headers['tknAppName'] || 'tkn'`. -/
def getTokenName (params : Params) (request : Request) : String :=
  if strTruthy params.tknAppName then params.tknAppName.getD "tkn"
  else if strTruthy request.headersTknAppName then request.headersTknAppName.getD "tkn"
  else "tkn"

/-- Embeds `extractToken(request, name)` (lines 322-333).  Both source branches —
the map-style `cookies[name]` read and the servlet-style scan comparing
`cookies[i].getName()` — are a lookup of the first cookie with the given
name, which is how the cookie collection is modelled here. -/
def extractToken (request : Request) (name : String) : Option JwtString :=
  (request.cookies.find? (fun p => p.1 = name)).map (fun p => p.2)

/-- Embeds `readToken(request, name)` (lines 312-320): a falsy or absent cookie
value yields `null`; otherwise the value is deserialized (which throws on
a malformed token). -/
def readToken (request : Request) (name : String) :
    Except AuthError (Option Token) :=
  match extractToken request name with
  | some tkn =>
    if jwtTruthy tkn then
      match jwtDeserialize tkn with
      | Except.ok t => Except.ok (some t)
      | Except.error e => Except.error e
    else
      Except.ok none
  | none => Except.ok none

/-- Embeds `isAccessTokenAlive(token)` (lines 300-302):
`token.exp && token.exp >= now` — an absent or zero `exp` is falsy. -/
def isAccessTokenAlive (token : Token) (now : Nat) : Bool :=
  match token.exp with
  | some e => decide (e ≠ 0) && decide (now ≤ e)
  | none => false

/-- Embeds `isRefreshTokenAlive(token)` (lines 304-306), symmetric. -/
def isRefreshTokenAlive (token : Token) (now : Nat) : Bool :=
  match token.rtexp with
  | some r => decide (r ≠ 0) && decide (now ≤ r)
  | none => false

/-- Embeds `setTokenIntoHeader(params, request, response, serializedToken)`
(lines 350-361), as the Set-Cookie effect it emits. -/
def setTokenIntoHeader (c : AuthConfig) (params : Params) (request : Request)
    (serializedToken : JwtString) : Effect :=
  Effect.setCookie (getTokenName params request) serializedToken
    c.authUseSecureAuthentication

/-- Embeds `tryToRefreshToken(params, request, response, token)` (lines 335-348).
A dead refresh window or a denying `canRefreshTokenFn` throws; a token
without `udata` makes line 344 (`token.udata.app`) throw a TypeError;
otherwise `exp`/`rtexp` are recomputed from the current TTL policy, the
renewed token is re-serialized into the cookie header, and processing
continues with the renewed token. -/
def tryToRefreshToken (c : AuthConfig) (params : Params) (request : Request)
    (tm : Times) (token : Token) : Except AuthError (Token × List Effect) :=
  if !(isRefreshTokenAlive token tm.tRefreshCheck) then
    Except.error AuthError.refreshExpired
  else if (match c.authCanRefreshTokenFn with
           | some fn => !(fn token)
           | none => false) then
    Except.error AuthError.refreshDenied
  else
    match token.udata with
    | none => Except.error AuthError.udataMissing
    | some u =>
      let renewed : Token :=
        { token with
            exp := some (tm.tNewExp + getAccessTokenTTL c u.app)
            rtexp := some (tm.tNewRtexp + getRefreshTokenTTL c u.app) }
      Except.ok (renewed, [setTokenIntoHeader c params request (jwtSerialize renewed)])

/-- Embeds `proccessAndValidateToken(params, request, response)` (lines 281-298).
The result carries, besides the effect trace, the `udata` assigned to
`request.userData` on success or the thrown error on failure; a
`refreshAttempt` trace event is recorded at the call of
`tryToRefreshToken` (line 290). -/
def proccessAndValidateToken (c : AuthConfig) (params : Params)
    (request : Request) (tm : Times) :
    Except (AuthError × List Effect) (Option UData × List Effect) :=
  let tknAppName := getTokenName params request
  match readToken request tknAppName with
  | Except.error e => Except.error (e, [])
  | Except.ok none => Except.error (AuthError.tokenNotFound, [])
  | Except.ok (some token) =>
    if isAccessTokenAlive token tm.tAccess then
      if !(isAuthorized c request (token.udata.bind (fun u => u.data))) then
        Except.error (AuthError.notAuthorized, [])
      else
        Except.ok (token.udata, [])
    else
      match tryToRefreshToken c params request tm token with
      | Except.error e => Except.error (e, [Effect.refreshAttempt])
      | Except.ok (renewed, effs) =>
        if !(isAuthorized c request (renewed.udata.bind (fun u => u.data))) then
          Except.error (AuthError.notAuthorized, Effect.refreshAttempt :: effs)
        else
          Except.ok (renewed.udata, Effect.refreshAttempt :: effs)

/-- Embeds `notAuthenticated(response)` (lines 274-279): the structured rejection
`response.json({message, status: 401}, 401)`. -/
def notAuthenticated : Effect :=
  Effect.jsonBody "Authentication Error: Not Authenticated" 401 401

/-- Embeds `middleware(params, request, response)` (lines 164-177).  Returns the
continue/stop flag, the request as it stands afterwards (`request.userData`
attached on a successful authenticated pass), and the effect trace. -/
def middleware (c : AuthConfig) (params : Params) (request : Request)
    (tm : Times) : Bool × Request × List Effect :=
  if !(isAuthenticatedUrl c request.requestURI) then
    (true, request, [])
  else
    match proccessAndValidateToken c params request tm with
    | Except.ok (ud, effs) => (true, { request with userData := ud }, effs)
    | Except.error (e, effs) =>
      (false, request, effs ++ [Effect.printLog e, notAuthenticated])

/-- Embeds `validateOnlyAuthorization(params, request, response, userData)`
(lines 186-198). -/
def validateOnlyAuthorization (c : AuthConfig) (request : Request)
    (userData : Option UserData) : Bool × List Effect :=
  if !(isAuthorized c request userData) then
    (false, [Effect.printLog AuthError.notAuthorized, notAuthenticated])
  else
    (true, [])

/-- Embeds `createAuthentication(params, request, response, userId, appId, data)`
(lines 212-229): `tc1` and `tc2` are the two `new Date().getTime()`
samples of lines 213 and 218, in order.  Returns the issued payload and
the Set-Cookie effect placing its serialization. -/
def createAuthentication (c : AuthConfig) (params : Params)
    (request : Request) (tc1 tc2 : Nat) (userId : Nat) (appId : String)
    (data : Option UserData) : Token × List Effect :=
  let tkn : Token :=
    { exp := some (tc1 + getAccessTokenTTL c appId)
      iss := some appId
      rtexp := some (tc2 + getRefreshTokenTTL c appId)
      udata := some { app := appId, sub := userId, data := data } }
  (tkn, [setTokenIntoHeader c params request (jwtSerialize tkn)])

/-- Embeds `destroyAuthentication(params, request, response)` (lines 240-242):
overwrites the cookie with the `'undefined'` sentinel. -/
def destroyAuthentication (c : AuthConfig) (params : Params)
    (request : Request) : List Effect :=
  [setTokenIntoHeader c params request (JwtString.invalid "undefined")]

/-! ## Sample data for concrete runs -/

/-- A compiled rule whose pattern matches every URI, restricted to the
`admin` role (as from configuration `{"/admin/*": ["admin"]}`). -/
def alwaysAdminRule : UrlRule :=
  { matchesUri := fun _ => true, data := ["admin"] }

/-- A compiled rule whose pattern matches no URI. -/
def neverRule : UrlRule :=
  { matchesUri := fun _ => false, data := ["admin"] }

/-- A configuration whose authorization rule set is `[alwaysAdminRule]`. -/
def adminConfig : AuthConfig :=
  authorizations initialAuth [alwaysAdminRule]

/-- A configuration whose authorization rule set is `[neverRule]`. -/
def noMatchConfig : AuthConfig :=
  authorizations initialAuth [neverRule]

/-- A request with the given URI and cookies, no `tknAppName` header. -/
def mkRequest (uri : String) (cookies : List (String × JwtString)) : Request :=
  { requestURI := uri, headersTknAppName := none, cookies := cookies,
    userData := none }

/-- Middleware `params` without a `tknAppName` entry. -/
def noParams : Params := { tknAppName := none }

/-! ## TTL lookup lemmas -/

theorem jsTtlLookup_pos (m : List (String × Nat)) (app : String) (v : Nat)
    (h : ttlGet m app = some v) (hv : v ≠ 0) : jsTtlLookup m app = v := by
  unfold jsTtlLookup
  rw [h]
  simp [hv]

theorem jsTtlLookup_default_val (m : List (String × Nat)) :
    jsTtlLookup m "default" = (ttlGet m "default").getD 0 := by
  unfold jsTtlLookup
  cases h : ttlGet m "default" with
  | none => simp
  | some v =>
    by_cases hv : v = 0 <;> simp [hv]

theorem jsTtlLookup_fallback (m : List (String × Nat)) (app : String)
    (h : ttlGet m app = none ∨ ttlGet m app = some 0) :
    jsTtlLookup m app = jsTtlLookup m "default" := by
  rw [jsTtlLookup_default_val]
  unfold jsTtlLookup
  rcases h with h | h <;> simp [h]

/-! ## C1 -/

/-- C1: for every request whose caller data carries a non-empty role set
(or when a custom authorize function is configured), if the authorization
rule set is configured but no rule in it matches the request URI,
`isAuthorized` returns true (default-allow for URLs with no explicit
rule). -/
theorem isAuthorized_default_allow_on_no_match (c : AuthConfig)
    (request : Request) (userData : Option UserData) (rules : List UrlRule)
    (hcfg : c.authAuthorizations = some rules)
    (_hcaller : normRoles userData ≠ [] ∨ c.authAuthorizeFn.isSome = true)
    (hnomatch : ∀ r ∈ rules, r.matchesUri request.requestURI = false) :
    isAuthorized c request userData = true := by
  unfold isAuthorized
  rw [hcfg]
  simp only
  split
  · rfl
  · unfold urlMatchesWith
    have hany : rules.any (fun r => r.matchesUri request.requestURI) = false := by
      rw [List.any_eq_false]
      intro r hr
      simp [hnomatch r hr]
    rw [hany]
    simp

/-- C1 witness: with the rule set `[neverRule]` configured, a caller
holding the role `user` is authorized for `/admin/reports`. -/
theorem isAuthorized_default_allow_on_no_match_witness :
    isAuthorized noMatchConfig (mkRequest "/admin/reports" [])
      (some { roles := RolesVal.many ["user"] }) = true :=
  isAuthorized_default_allow_on_no_match noMatchConfig
    (mkRequest "/admin/reports" []) (some { roles := RolesVal.many ["user"] })
    [neverRule] (by rfl) (by simp [normRoles]) (by decide)

/-! ## C3 -/

/-- C3 counterexample: with a configured rule set containing a rule
matching the URI, no custom authorize function, and a caller whose `roles`
is the EMPTY ARRAY (an empty role set), `isAuthorized` returns false — not
true as the claim states: an empty array is truthy in JS, so line 251's
`!userRoles` early exit is not taken, and the caller's empty role set
intersects no rule's roles. -/
theorem isAuthorized_empty_roles_counterexample :
    isAuthorized adminConfig (mkRequest "/admin/reports" [])
      (some { roles := RolesVal.many [] }) = false := by
  rfl

/-- C3 (amended): for every request URI and caller data, if no
authorization rule set has been configured, or if no custom authorize
function is configured and the caller's roles value is JS-falsy (caller
data absent, `roles` field absent, or `roles` the empty string — but NOT
an empty roles array, which is truthy and gets denied on rule-matched
URIs), then `isAuthorized` returns true. -/
theorem isAuthorized_fail_open (c : AuthConfig) (request : Request)
    (userData : Option UserData)
    (h : c.authAuthorizations = none ∨
         (c.authAuthorizeFn = none ∧ rolesTruthy userData = false)) :
    isAuthorized c request userData = true := by
  unfold isAuthorized
  rcases h with h | ⟨hfn, hroles⟩
  · rw [h]
  · cases hcfg : c.authAuthorizations with
    | none => rfl
    | some rules => simp [hfn, hroles]

/-- C3 witness: under `adminConfig` a caller with an absent `roles` field
(no custom authorize function configured) is authorized. -/
theorem isAuthorized_fail_open_witness :
    isAuthorized adminConfig (mkRequest "/admin/reports" [])
      (some { roles := RolesVal.absent }) = true :=
  isAuthorized_fail_open adminConfig (mkRequest "/admin/reports" [])
    (some { roles := RolesVal.absent }) (Or.inr ⟨by rfl, by rfl⟩)

/-! ## C4 -/

/-- A configuration with a per-app access TTL entry of `0` for `app1`. -/
def zeroTtlConfig : AuthConfig :=
  accessTokenTTL initialAuth (some "app1") 0

/-- C4 counterexample: in the reachable configuration
`accessTokenTTL('app1', 0)`, a per-app entry IS present in the map
(`some 0`), yet `getAccessTokenTTL('app1')` returns the default 300000,
not the configured 0: the JS `||` treats the configured `0` as absent. -/
theorem getAccessTokenTTL_zero_counterexample :
    Reachable zeroTtlConfig ∧
    ttlGet zeroTtlConfig.authAccessTokenTTL "app1" = some 0 ∧
    getAccessTokenTTL zeroTtlConfig "app1" = 300000 ∧
    (300000 : Nat) ≠ 0 :=
  ⟨Reachable.accessTTL initialAuth (some "app1") 0 Reachable.init,
   by decide, by decide, by decide⟩

/-- C4 (amended): `getAccessTokenTTL` (and symmetrically
`getRefreshTokenTTL`) returns the per-app configured duration whenever one
is present in the map AND nonzero; it returns the `default` entry when no
per-app entry exists OR the per-app entry is `0` (JS `||` falsiness).  In
particular, for every appId with no explicit TTL configured,
`getAccessTokenTTL(appId) = getAccessTokenTTL("default")`. -/
theorem getTokenTTL_lookup (c : AuthConfig) (app : String) :
    (∀ v, ttlGet c.authAccessTokenTTL app = some v → v ≠ 0 →
       getAccessTokenTTL c app = v) ∧
    (ttlGet c.authAccessTokenTTL app = none ∨
       ttlGet c.authAccessTokenTTL app = some 0 →
       getAccessTokenTTL c app = getAccessTokenTTL c "default") ∧
    (∀ v, ttlGet c.authRefreshTokenTTL app = some v → v ≠ 0 →
       getRefreshTokenTTL c app = v) ∧
    (ttlGet c.authRefreshTokenTTL app = none ∨
       ttlGet c.authRefreshTokenTTL app = some 0 →
       getRefreshTokenTTL c app = getRefreshTokenTTL c "default") := by
  refine ⟨?_, ?_, ?_, ?_⟩
  · intro v h hv
    exact jsTtlLookup_pos c.authAccessTokenTTL app v h hv
  · intro h
    exact jsTtlLookup_fallback c.authAccessTokenTTL app h
  · intro v h hv
    exact jsTtlLookup_pos c.authRefreshTokenTTL app v h hv
  · intro h
    exact jsTtlLookup_fallback c.authRefreshTokenTTL app h

/-- C4 witness: in the initial configuration, `app1` has no per-app entry
and `getAccessTokenTTL` falls back to the default 300000; the nonzero
default entry itself is returned verbatim. -/
theorem getTokenTTL_lookup_witness :
    getAccessTokenTTL initialAuth "app1" = getAccessTokenTTL initialAuth "default" ∧
    getAccessTokenTTL initialAuth "default" = 300000 :=
  ⟨(getTokenTTL_lookup initialAuth "app1").2.1 (Or.inl (by decide)),
   (getTokenTTL_lookup initialAuth "default").1 300000 (by decide) (by decide)⟩

/-! ## C5 -/

/-- A reachable configuration whose default access TTL (10 ms) exceeds its
default refresh TTL (5 ms). -/
def invertedTtlConfig : AuthConfig :=
  refreshTokenTTL (accessTokenTTL initialAuth none 10) none 5

/-- C5 counterexample: under the reachable TTL configuration
`accessTokenTTL(10); refreshTokenTTL(5)` (the setters validate nothing),
the token issued by `createAuthentication` at time 0 has `exp = 10` and
`rtexp = 5`, violating `rtexp ≥ exp` at issuance. -/
theorem createAuthentication_rtexp_lt_exp_counterexample :
    Reachable invertedTtlConfig ∧
    (createAuthentication invertedTtlConfig noParams (mkRequest "/login" [])
        0 0 42 "app1" none).1.exp = some 10 ∧
    (createAuthentication invertedTtlConfig noParams (mkRequest "/login" [])
        0 0 42 "app1" none).1.rtexp = some 5 ∧
    (5 : Nat) < 10 :=
  ⟨Reachable.refreshTTL (accessTokenTTL initialAuth none 10) none 5
     (Reachable.accessTTL initialAuth none 10 Reachable.init),
   by decide, by decide, by decide⟩

/-- C5 (amended): every token produced by `createAuthentication` satisfies
`rtexp ≥ exp` at issuance whenever the configured refresh TTL for the app
is at least the configured access TTL (as with the 5-minute / 8-hour
defaults); a configuration with refresh TTL below access TTL is reachable
and inverts the two fields. -/
theorem createAuthentication_rtexp_ge_exp (c : AuthConfig) (params : Params)
    (request : Request) (tc1 tc2 : Nat) (userId : Nat) (appId : String)
    (data : Option UserData)
    (horder : tc1 ≤ tc2)
    (httl : getAccessTokenTTL c appId ≤ getRefreshTokenTTL c appId) :
    ∃ e r,
      (createAuthentication c params request tc1 tc2 userId appId data).1.exp
        = some e ∧
      (createAuthentication c params request tc1 tc2 userId appId data).1.rtexp
        = some r ∧
      e ≤ r :=
  ⟨tc1 + getAccessTokenTTL c appId, tc2 + getRefreshTokenTTL c appId,
   rfl, rfl, Nat.add_le_add horder httl⟩

/-- C5 witness: under the default configuration a token created at
`tc1 = tc2 = 1000` has `exp ≤ rtexp`. -/
theorem createAuthentication_rtexp_ge_exp_witness :
    ∃ e r,
      (createAuthentication initialAuth noParams (mkRequest "/login" [])
          1000 1000 42 "app1" none).1.exp = some e ∧
      (createAuthentication initialAuth noParams (mkRequest "/login" [])
          1000 1000 42 "app1" none).1.rtexp = some r ∧
      e ≤ r :=
  createAuthentication_rtexp_ge_exp initialAuth noParams (mkRequest "/login" [])
    1000 1000 42 "app1" none (Nat.le_refl 1000) (by decide)

/-! ## C7 -/

/-- C7 counterexample: rule `alwaysAdminRule` (roles `["admin"]`) matches
the URI and the caller's single string role is the EMPTY string — as a
one-element set `{""}` it is disjoint from `["admin"]`, so the claim
demands `isAuthorized = false`; but `''` is falsy in JS, line 251's
`!userRoles` early exit fires, and `isAuthorized` returns true. -/
theorem isAuthorized_empty_string_role_counterexample :
    alwaysAdminRule.matchesUri "/admin/reports" = true ∧
    alwaysAdminRule.data.all (fun role => !([""].contains role)) = true ∧
    isAuthorized adminConfig (mkRequest "/admin/reports" [])
      (some { roles := RolesVal.one "" }) = true := by
  refine ⟨rfl, by decide, rfl⟩

/-- C7 (amended): with no custom authorize function configured and a
caller whose roles value is JS-truthy (a NON-empty single string role,
treated as a one-element set, or an array of roles), for every request URI
matched by at least one rule of the configured rule set: `isAuthorized`
returns true iff some matching rule's configured roles intersect the
caller's roles — so disjointness from every matching rule yields false.
(An empty-string single role is falsy and fails open instead.) -/
theorem isAuthorized_role_intersection (c : AuthConfig) (request : Request)
    (userData : Option UserData) (rules : List UrlRule)
    (hcfg : c.authAuthorizations = some rules)
    (hfn : c.authAuthorizeFn = none)
    (htruthy : rolesTruthy userData = true)
    (hmatched : rules.any (fun r => r.matchesUri request.requestURI) = true) :
    (isAuthorized c request userData = true ↔
      ∃ r ∈ rules, r.matchesUri request.requestURI = true ∧
        ∃ role ∈ r.data, role ∈ normRoles userData) := by
  unfold isAuthorized
  rw [hcfg]
  simp only [hfn, Option.isNone_none, htruthy, Bool.not_true, Bool.and_false,
    Bool.false_eq_true, if_false]
  unfold urlMatchesWith
  rw [hmatched]
  simp only [if_true, List.any_eq_true, Bool.and_eq_true, List.elem_iff]

/-- C7 witness: under `adminConfig`, a caller with roles
`["admin", "user"]` is authorized for `/admin/reports`, and a caller with
the single role `user` is not. -/
theorem isAuthorized_role_intersection_witness :
    isAuthorized adminConfig (mkRequest "/admin/reports" [])
      (some { roles := RolesVal.many ["admin", "user"] }) = true ∧
    isAuthorized adminConfig (mkRequest "/admin/reports" [])
      (some { roles := RolesVal.one "user" }) = false := by
  constructor
  · exact (isAuthorized_role_intersection adminConfig
      (mkRequest "/admin/reports" [])
      (some { roles := RolesVal.many ["admin", "user"] })
      [alwaysAdminRule] (by rfl) (by rfl) (by rfl) (by decide)).mpr
      ⟨alwaysAdminRule, List.mem_singleton.mpr rfl, rfl, "admin", by decide, by decide⟩
  · have h := (isAuthorized_role_intersection adminConfig
      (mkRequest "/admin/reports" [])
      (some { roles := RolesVal.one "user" })
      [alwaysAdminRule] (by rfl) (by rfl) (by rfl) (by decide))
    by_cases hb : isAuthorized adminConfig (mkRequest "/admin/reports" [])
      (some { roles := RolesVal.one "user" }) = true
    · exfalso
      rcases h.mp hb with ⟨r, hr, hm, role, hrd, hrm⟩
      rcases List.mem_singleton.mp hr with rfl
      rcases List.mem_singleton.mp hrd with rfl
      simp [normRoles] at hrm
    · simpa using hb

/-! ## Refresh helper lemmas -/

/-- Shape of a successful `tryToRefreshToken`: the renewed token is the
original with `exp`/`rtexp` recomputed from the current TTL policy for
`token.udata.app`, and the single emitted effect re-serializes it into
the cookie header. -/
theorem tryToRefreshToken_ok (c : AuthConfig) (params : Params)
    (request : Request) (tm : Times) (token renewed : Token)
    (effs : List Effect)
    (h : tryToRefreshToken c params request tm token =
      Except.ok (renewed, effs)) :
    ∃ u, token.udata = some u ∧
      renewed = { token with
        exp := some (tm.tNewExp + getAccessTokenTTL c u.app)
        rtexp := some (tm.tNewRtexp + getRefreshTokenTTL c u.app) } ∧
      effs = [Effect.setCookie (getTokenName params request)
        (jwtSerialize renewed) c.authUseSecureAuthentication] := by
  unfold tryToRefreshToken at h
  split at h
  · simp at h
  · split at h
    · simp at h
    · cases hud : token.udata with
      | none =>
        rw [hud] at h
        simp at h
      | some u =>
        rw [hud] at h
        simp only [setTokenIntoHeader, Except.ok.injEq, Prod.mk.injEq] at h
        obtain ⟨h1, h2⟩ := h
        refine ⟨u, rfl, h1.symm, ?_⟩
        rw [← h1]
        exact h2.symm

/-! ## C10 -/

/-- C10: for every token that `tryToRefreshToken` successfully renews,
only the `exp` and `rtexp` fields of the payload change: the re-serialized
token carries the same `iss` and the same `udata` (app, sub, data) as the
original token. -/
theorem tryToRefreshToken_preserves_identity (c : AuthConfig)
    (params : Params) (request : Request) (tm : Times)
    (token renewed : Token) (effs : List Effect)
    (h : tryToRefreshToken c params request tm token =
      Except.ok (renewed, effs)) :
    renewed.iss = token.iss ∧ renewed.udata = token.udata ∧
    effs = [Effect.setCookie (getTokenName params request)
      (jwtSerialize renewed) c.authUseSecureAuthentication] := by
  obtain ⟨u, _, hr, he⟩ :=
    tryToRefreshToken_ok c params request tm token renewed effs h
  subst hr
  exact ⟨rfl, rfl, he⟩

/-- A token whose access window is over at time 10 but whose refresh
window is far in the future. -/
def sampleToken : Token :=
  { exp := some 5, iss := some "app1", rtexp := some 28900000,
    udata := some { app := "app1", sub := 42, data := none } }

/-- All four wall-clock samples taken at time 10. -/
def sampleTimes : Times :=
  { tAccess := 10, tRefreshCheck := 10, tNewExp := 10, tNewRtexp := 10 }

/-- The token `sampleToken` renewed at time 10 under the default TTLs. -/
def refreshedSample : Token :=
  { sampleToken with exp := some 300010, rtexp := some 28800010 }

/-- C10 witness: refreshing `sampleToken` under the default configuration
yields `refreshedSample` with `iss` and `udata` unchanged, and a single
Set-Cookie effect carrying the renewed serialization. -/
theorem tryToRefreshToken_preserves_identity_witness :
    refreshedSample.iss = sampleToken.iss ∧
    refreshedSample.udata = sampleToken.udata ∧
    [Effect.setCookie "tkn" (jwtSerialize refreshedSample) false] =
      [Effect.setCookie (getTokenName noParams (mkRequest "/x" []))
        (jwtSerialize refreshedSample)
        initialAuth.authUseSecureAuthentication] :=
  tryToRefreshToken_preserves_identity initialAuth noParams
    (mkRequest "/x" []) sampleTimes sampleToken refreshedSample
    [Effect.setCookie "tkn" (jwtSerialize refreshedSample) false] (by rfl)

/-! ## C2 -/

/-- C2 counterexample: a token whose `rtexp` (28900000) exceeds the
refresh-time wall clock (10) plus the configured refresh TTL (28800000) —
as issued under a larger, later-lowered refresh TTL — is refreshed, but
the renewed `rtexp` (28800010) is NOT strictly greater than the original:
the claim's strict-increase assertion for `rtexp` fails. -/
theorem middleware_refresh_rtexp_not_increasing_counterexample :
    (middleware initialAuth noParams
        (mkRequest "/x" [("tkn", JwtString.valid sampleToken)])
        sampleTimes).2.2 =
      [Effect.refreshAttempt,
       Effect.setCookie "tkn" (jwtSerialize refreshedSample) false] ∧
    sampleToken.rtexp = some 28900000 ∧
    refreshedSample.rtexp = some 28800010 ∧
    ¬ (28900000 : Nat) < 28800010 := by
  refine ⟨by rfl, by rfl, by rfl, by decide⟩

/-- C2 (amended): for every token whose `exp` is in the past and whose
`rtexp` is in the future, with the refresh-eligibility predicate granting
(or unset), `tryToRefreshToken` runs exactly once during the request
(exactly one `refreshAttempt` event in the middleware's trace) and the
renewed token's `exp` strictly exceeds the original `exp`; the renewed
`rtexp` strictly exceeds the original `rtexp` PROVIDED the original
`rtexp` is below the refresh-time wall clock plus the currently configured
refresh TTL (true in particular for any token issued under the current TTL
configuration strictly before the request), which the counterexample shows
is necessary. -/
theorem middleware_refresh_exactly_once (c : AuthConfig) (params : Params)
    (request : Request) (tm : Times) (token : Token) (u : UData)
    (e0 r0 : Nat)
    (hauth : isAuthenticatedUrl c request.requestURI = true)
    (hcookie : extractToken request (getTokenName params request) =
      some (JwtString.valid token))
    (hud : token.udata = some u)
    (hexp : token.exp = some e0) (hpast : e0 < tm.tAccess)
    (hrt : token.rtexp = some r0) (hfuture : tm.tRefreshCheck ≤ r0)
    (hr0 : r0 ≠ 0)
    (hcan : ∀ fn, c.authCanRefreshTokenFn = some fn → fn token = true)
    (hta : tm.tAccess ≤ tm.tNewExp)
    (hbound : r0 < tm.tNewRtexp + getRefreshTokenTTL c u.app) :
    (middleware c params request tm).2.2.count Effect.refreshAttempt = 1 ∧
    Effect.setCookie (getTokenName params request)
      (jwtSerialize { token with
        exp := some (tm.tNewExp + getAccessTokenTTL c u.app)
        rtexp := some (tm.tNewRtexp + getRefreshTokenTTL c u.app) })
      c.authUseSecureAuthentication ∈ (middleware c params request tm).2.2 ∧
    e0 < tm.tNewExp + getAccessTokenTTL c u.app ∧
    r0 < tm.tNewRtexp + getRefreshTokenTTL c u.app := by
  have hread : readToken request (getTokenName params request) =
      Except.ok (some token) := by
    unfold readToken
    rw [hcookie]
    rfl
  have hdead : isAccessTokenAlive token tm.tAccess = false := by
    unfold isAccessTokenAlive
    rw [hexp]
    simp only [Bool.and_eq_false_iff, decide_eq_false_iff_not, not_le, not_not]
    right
    exact hpast
  have halive : isRefreshTokenAlive token tm.tRefreshCheck = true := by
    unfold isRefreshTokenAlive
    rw [hrt]
    simp [hr0, hfuture]
  have hcanb : (match c.authCanRefreshTokenFn with
      | some fn => !(fn token)
      | none => false) = false := by
    cases hc : c.authCanRefreshTokenFn with
    | none => rfl
    | some fn => simp [hcan fn hc]
  have hrefresh : tryToRefreshToken c params request tm token =
      Except.ok ({ token with
        exp := some (tm.tNewExp + getAccessTokenTTL c u.app)
        rtexp := some (tm.tNewRtexp + getRefreshTokenTTL c u.app) },
        [Effect.setCookie (getTokenName params request)
          (jwtSerialize { token with
            exp := some (tm.tNewExp + getAccessTokenTTL c u.app)
            rtexp := some (tm.tNewRtexp + getRefreshTokenTTL c u.app) })
          c.authUseSecureAuthentication]) := by
    unfold tryToRefreshToken
    rw [halive, hcanb, hud]
    simp [setTokenIntoHeader, jwtSerialize]
  refine ⟨?_, ?_, Nat.lt_of_lt_of_le hpast (Nat.le_add_right_of_le hta), hbound⟩
  all_goals
    simp only [middleware, hauth, Bool.not_true, Bool.false_eq_true, if_false,
      proccessAndValidateToken, hread, hdead, hrefresh]
    cases hA : isAuthorized c request
        (({ token with
            exp := some (tm.tNewExp + getAccessTokenTTL c u.app)
            rtexp := some (tm.tNewRtexp + getRefreshTokenTTL c u.app) }
          : Token).udata.bind (fun v => v.data)) <;>
      simp [List.count_cons, List.count_append, notAuthenticated]

/-- A token expired at time 10 whose refresh window (1000) lies within the
current refresh TTL. -/
def earlyRefreshToken : Token :=
  { exp := some 5, iss := some "app1", rtexp := some 1000,
    udata := some { app := "app1", sub := 42, data := none } }

/-- C2 witness: processing `earlyRefreshToken` at time 10 under the
default configuration refreshes exactly once and strictly increases both
`exp` and `rtexp`. -/
theorem middleware_refresh_exactly_once_witness :
    (middleware initialAuth noParams
        (mkRequest "/x" [("tkn", JwtString.valid earlyRefreshToken)])
        sampleTimes).2.2.count Effect.refreshAttempt = 1 ∧
    Effect.setCookie
      (getTokenName noParams
        (mkRequest "/x" [("tkn", JwtString.valid earlyRefreshToken)]))
      (jwtSerialize { earlyRefreshToken with
        exp := some (sampleTimes.tNewExp + getAccessTokenTTL initialAuth "app1")
        rtexp := some (sampleTimes.tNewRtexp + getRefreshTokenTTL initialAuth "app1") })
      initialAuth.authUseSecureAuthentication ∈
      (middleware initialAuth noParams
        (mkRequest "/x" [("tkn", JwtString.valid earlyRefreshToken)])
        sampleTimes).2.2 ∧
    5 < sampleTimes.tNewExp + getAccessTokenTTL initialAuth "app1" ∧
    1000 < sampleTimes.tNewRtexp + getRefreshTokenTTL initialAuth "app1" :=
  middleware_refresh_exactly_once initialAuth noParams
    (mkRequest "/x" [("tkn", JwtString.valid earlyRefreshToken)]) sampleTimes
    earlyRefreshToken { app := "app1", sub := 42, data := none } 5 1000
    (by rfl) (by rfl) (by rfl) (by rfl) (by decide) (by rfl) (by decide)
    (by decide) (fun fn h => nomatch h) (by decide) (by decide)

/-! ## C6 -/

/-- C6: for every token whose `exp` and `rtexp` are both in the past,
processing the request raises the refresh-expired `AuthenticationError`
and the middleware rejects with the structured 401 response; the request
is never silently passed and `request.userData` is never attached (the
request comes back unchanged). -/
theorem middleware_rejects_fully_expired (c : AuthConfig) (params : Params)
    (request : Request) (tm : Times) (token : Token) (e0 r0 : Nat)
    (hauth : isAuthenticatedUrl c request.requestURI = true)
    (hcookie : extractToken request (getTokenName params request) =
      some (JwtString.valid token))
    (hexp : token.exp = some e0) (hpast : e0 < tm.tAccess)
    (hrt : token.rtexp = some r0) (hrpast : r0 < tm.tRefreshCheck) :
    middleware c params request tm =
      (false, request,
       [Effect.refreshAttempt, Effect.printLog AuthError.refreshExpired,
        Effect.jsonBody "Authentication Error: Not Authenticated" 401 401]) := by
  have hread : readToken request (getTokenName params request) =
      Except.ok (some token) := by
    unfold readToken
    rw [hcookie]
    rfl
  have hdead : isAccessTokenAlive token tm.tAccess = false := by
    unfold isAccessTokenAlive
    rw [hexp]
    simp only [Bool.and_eq_false_iff, decide_eq_false_iff_not, not_le, not_not]
    right
    exact hpast
  have hrdead : isRefreshTokenAlive token tm.tRefreshCheck = false := by
    unfold isRefreshTokenAlive
    rw [hrt]
    simp only [Bool.and_eq_false_iff, decide_eq_false_iff_not, not_le, not_not]
    right
    exact hrpast
  have hrefresh : tryToRefreshToken c params request tm token =
      Except.error AuthError.refreshExpired := by
    unfold tryToRefreshToken
    rw [hrdead]
    rfl
  simp [middleware, hauth, proccessAndValidateToken, hread, hdead, hrefresh,
    notAuthenticated]

/-- A token whose access and refresh windows are both over at time 10. -/
def fullyExpiredToken : Token :=
  { exp := some 5, iss := some "app1", rtexp := some 7,
    udata := some { app := "app1", sub := 42, data := none } }

/-- C6 witness: presenting `fullyExpiredToken` at time 10 under the
default configuration is rejected with the structured 401 response. -/
theorem middleware_rejects_fully_expired_witness :
    middleware initialAuth noParams
      (mkRequest "/x" [("tkn", JwtString.valid fullyExpiredToken)])
      sampleTimes =
      (false, mkRequest "/x" [("tkn", JwtString.valid fullyExpiredToken)],
       [Effect.refreshAttempt, Effect.printLog AuthError.refreshExpired,
        Effect.jsonBody "Authentication Error: Not Authenticated" 401 401]) :=
  middleware_rejects_fully_expired initialAuth noParams
    (mkRequest "/x" [("tkn", JwtString.valid fullyExpiredToken)])
    sampleTimes fullyExpiredToken 5 7
    (by rfl) (by rfl) (by rfl) (by decide) (by rfl) (by decide)

/-! ## C8 -/

/-- C8: for every request whose URI matches the configured
not-authenticated rule set, `middleware` returns true with an empty effect
trace (no token extraction, decoding or refresh, nothing written to the
response) and the request unchanged — regardless of what cookies are
present. -/
theorem middleware_exempt_url (c : AuthConfig) (params : Params)
    (request : Request) (tm : Times) (rules : List UrlRule) (r : UrlRule)
    (hcfg : c.authNotAuthenticatedUrls = some rules)
    (hr : r ∈ rules) (hm : r.matchesUri request.requestURI = true) :
    middleware c params request tm = (true, request, []) := by
  have hexempt : isAuthenticatedUrl c request.requestURI = false := by
    unfold isAuthenticatedUrl
    rw [hcfg]
    simp only [Bool.not_eq_false', urlMatches, List.any_eq_true]
    exact ⟨r, hr, hm⟩
  unfold middleware
  rw [hexempt]
  rfl

/-- A compiled rule for the pattern `/public/*`, matching the two public
URIs of the deployment. -/
def publicRule : UrlRule :=
  { matchesUri := fun uri => uri == "/public/health" || uri == "/public/metrics",
    data := [] }

/-- A configuration whose not-authenticated set is `[publicRule]`. -/
def publicConfig : AuthConfig :=
  notAuthenticatedUrls initialAuth (some [publicRule])

/-- C8 witness: a request to `/public/health` carrying a garbage cookie
passes untouched, with no effects. -/
theorem middleware_exempt_url_witness :
    middleware publicConfig noParams
      (mkRequest "/public/health" [("tkn", JwtString.invalid "garbage")])
      sampleTimes =
      (true, mkRequest "/public/health" [("tkn", JwtString.invalid "garbage")],
       []) :=
  middleware_exempt_url publicConfig noParams
    (mkRequest "/public/health" [("tkn", JwtString.invalid "garbage")])
    sampleTimes [publicRule] publicRule (by rfl) (List.mem_singleton.mpr rfl)
    (by decide)

/-! ## C9 -/

/-- The effect trace of a `proccessAndValidateToken` outcome, success or
failure. -/
def procEffs :
    Except (AuthError × List Effect) (Option UData × List Effect) →
    List Effect
  | Except.ok (_, effs) => effs
  | Except.error (_, effs) => effs

/-- Whether an effect is a `response.json` write. -/
def Effect.isJsonOut : Effect → Bool
  | Effect.jsonBody _ _ _ => true
  | _ => false

/-- The function `proccessAndValidateToken` itself never writes to the response: its
trace holds only cookie headers and refresh markers; the rejection body is
written by `middleware`'s catch block alone. -/
theorem proccess_writes_no_response (c : AuthConfig) (params : Params)
    (request : Request) (tm : Times) :
    (procEffs (proccessAndValidateToken c params request tm)).all
      (fun x => !x.isJsonOut) = true := by
  unfold proccessAndValidateToken
  cases hread : readToken request (getTokenName params request) with
  | error e => simp [hread, procEffs]
  | ok o =>
    cases o with
    | none => simp [hread, procEffs]
    | some token =>
      simp only [hread]
      split
      · split <;> simp [procEffs, Effect.isJsonOut]
      · cases hr : tryToRefreshToken c params request tm token with
        | error e => simp [procEffs, Effect.isJsonOut]
        | ok pr =>
          obtain ⟨renewed, effs⟩ := pr
          obtain ⟨u, hu, hren, heffs⟩ :=
            tryToRefreshToken_ok c params request tm token renewed effs hr
          subst heffs
          simp only []
          split <;> simp [procEffs, Effect.isJsonOut]

/-- C9: for every failing request — authentication or authorization
failure alike — `middleware` returns false and its trace ends with the log
of the error followed by exactly one structured rejection (JSON body with
`message` and `status` fields and HTTP status 401), nothing else in the
trace being a response write; on success it returns true and writes no
response at all. -/
theorem middleware_uniform_rejection (c : AuthConfig) (params : Params)
    (request : Request) (tm : Times) :
    ((middleware c params request tm).1 = false →
      ∃ e rest, (middleware c params request tm).2.2 =
        rest ++ [Effect.printLog e,
          Effect.jsonBody "Authentication Error: Not Authenticated" 401 401] ∧
        rest.all (fun x => !x.isJsonOut) = true) ∧
    ((middleware c params request tm).1 = true →
      (middleware c params request tm).2.2.all (fun x => !x.isJsonOut) = true) := by
  have hp := proccess_writes_no_response c params request tm
  unfold middleware
  split
  · refine ⟨fun h => absurd h (by simp), fun _ => by simp⟩
  · cases hm : proccessAndValidateToken c params request tm with
    | ok pr =>
      obtain ⟨ud, effs⟩ := pr
      rw [hm] at hp
      refine ⟨fun h => absurd h (by simp), fun _ => ?_⟩
      simpa [procEffs] using hp
    | error pr =>
      obtain ⟨e, effs⟩ := pr
      rw [hm] at hp
      refine ⟨fun _ => ⟨e, effs, by simp [notAuthenticated], ?_⟩,
        fun h => absurd h (by simp)⟩
      simpa [procEffs] using hp

/-- C9 witness: a request with no cookie at all is rejected: the trace is
exactly the error log followed by the structured 401 rejection. -/
theorem middleware_uniform_rejection_witness :
    ∃ e rest,
      (middleware initialAuth noParams (mkRequest "/x" []) sampleTimes).2.2 =
        rest ++ [Effect.printLog e,
          Effect.jsonBody "Authentication Error: Not Authenticated" 401 401] ∧
      rest.all (fun x => !x.isJsonOut) = true :=
  (middleware_uniform_rejection initialAuth noParams (mkRequest "/x" [])
    sampleTimes).1 (by rfl)
